import Mathlib

/-!
Verification of the Earth Day 2025 hotel-dashboard comparison engine.

The development shallowly embeds the day-matching / comparison-metric code of
the repository (files `earthday_canopy.py`, `earthday_westin.py`,
`earthday_camden.py`, `earthday_cie.py`, `4cgroup.py`) and proves or refutes
the frozen specification claims about it.

Modelling conventions:
* `Total Usage` sums are pandas/numpy scalars at runtime; their exact values
  are modelled by `ℚ`.  Where an operation can produce a non-finite IEEE
  value (numpy division by zero yields `inf`/`-inf`/`nan` with a warning and
  never raises; `mean()` of an empty selection yields `nan`), the value is
  modelled by `PyFloat`, an extended-rational type with the IEEE comparison
  rules used by Python's `min`/`max` builtins.
* Calendar dates are a `(year, month, day)` record with proleptic-Gregorian
  ordinal arithmetic; pandas timestamp order is the lexicographic order on
  the components.
* DataFrame range filters become `List.filter`; Python `set` intersection of
  key columns becomes `List.toFinset` intersection.
-/

/-! ## Extended rationals modelling numpy float results -/

/-- Value of a numpy floating-point scalar: a finite rational, `+inf`,
`-inf`, or `nan`.  Finite values are kept exact (rationals) since every claim
is about discrete guards, not rounding. -/
inductive PyFloat : Type where
  | fin : ℚ → PyFloat
  | pinf : PyFloat
  | ninf : PyFloat
  | nan : PyFloat
deriving DecidableEq, Repr

namespace PyFloat

/-- IEEE `<` as used by Python comparisons: any comparison with `nan` is
`False`. -/
def lt : PyFloat → PyFloat → Bool
  | fin a, fin b => a < b
  | fin _, pinf => true
  | ninf, fin _ => true
  | ninf, pinf => true
  | _, _ => false

/-- Python `max(a, b)`: returns `b` exactly when `b > a` (so `max(0, nan) = 0`). -/
def pymax (a b : PyFloat) : PyFloat := if lt a b then b else a

/-- Python `min(a, b)`: returns `b` exactly when `b < a` (so `min(100, nan) = 100`). -/
def pymin (a b : PyFloat) : PyFloat := if lt b a then b else a

/-- IEEE multiplication on the sign/infinity skeleton. -/
def mul : PyFloat → PyFloat → PyFloat
  | fin a, fin b => fin (a * b)
  | fin a, pinf => if 0 < a then pinf else if a < 0 then ninf else nan
  | pinf, fin b => if 0 < b then pinf else if b < 0 then ninf else nan
  | fin a, ninf => if 0 < a then ninf else if a < 0 then pinf else nan
  | ninf, fin b => if 0 < b then ninf else if b < 0 then pinf else nan
  | pinf, pinf => pinf
  | ninf, ninf => pinf
  | pinf, ninf => ninf
  | ninf, pinf => ninf
  | nan, _ => nan
  | _, nan => nan

end PyFloat

/-- numpy scalar division of two finite values: division by zero warns and
yields `nan` (0/0) or a signed infinity, and never raises an exception. -/
def npDivQ (a b : ℚ) : PyFloat :=
  if b = 0 then (if a = 0 then PyFloat.nan else if 0 < a then PyFloat.pinf else PyFloat.ninf)
  else PyFloat.fin (a / b)

/-- Python `int(x)` on a finite float truncates toward zero. -/
def truncToInt (q : ℚ) : ℤ := if 0 ≤ q then ⌊q⌋ else -⌊-q⌋

/-! ## Calendar dates -/

/-- A calendar date, as carried by the `Date` column (`pandas.Timestamp` at
midnight). -/
structure Date : Type where
  year : ℕ
  month : ℕ
  day : ℕ
deriving DecidableEq, Repr

/-- Gregorian leap-year rule. -/
def isLeapYear (y : ℕ) : Bool := (y % 4 == 0 && y % 100 != 0) || y % 400 == 0

/-- Length of a month. -/
def daysInMonth (y m : ℕ) : ℕ :=
  if m = 2 then (if isLeapYear y then 29 else 28)
  else if m = 4 ∨ m = 6 ∨ m = 9 ∨ m = 11 then 30
  else 31

/-- A structurally valid calendar date. -/
def Date.Valid (d : Date) : Prop :=
  1 ≤ d.month ∧ d.month ≤ 12 ∧ 1 ≤ d.day ∧ d.day ≤ daysInMonth d.year d.month

instance (d : Date) : Decidable d.Valid := by unfold Date.Valid; infer_instance

/-- Days in all years strictly before year `y` (proleptic Gregorian). -/
def daysBeforeYear (y : ℕ) : ℕ :=
  365 * (y - 1) + (y - 1) / 4 + (y - 1) / 400 - (y - 1) / 100

/-- Days in the months of year `y` strictly before month `m`. -/
def daysBeforeMonth (y m : ℕ) : ℕ :=
  (((List.range (m - 1)).map fun i => daysInMonth y (i + 1))).sum

/-- Proleptic-Gregorian ordinal of a date (0001-01-01 ↦ 1), the value behind
`timedelta` subtraction of two timestamps. -/
def toOrdinal (d : Date) : ℕ := daysBeforeYear d.year + daysBeforeMonth d.year d.month + d.day

/-- `(e - s).days` for two timestamps. -/
def dateDiffDays (s e : Date) : ℤ := (toOrdinal e : ℤ) - (toOrdinal s : ℤ)

/-- `pandas .dt.dayofweek`: Monday = 0 … Sunday = 6.  0001-01-01 is a Monday
in the proleptic Gregorian calendar. -/
def dayOfWeek (d : Date) : ℕ := (toOrdinal d + 6) % 7

/-- Chronological order on dates (pandas timestamp `<=`), lexicographic on
`(year, month, day)`. -/
def Date.le (a b : Date) : Bool :=
  a.year < b.year ||
    (a.year == b.year && (a.month < b.month || (a.month == b.month && a.day ≤ b.day)))

/-- `start <= d <= end`, the DataFrame mask `(df['Date'] >= start) & (df['Date'] <= end)`. -/
def inRange (s e d : Date) : Bool := Date.le s d && Date.le d e

/-- The day before `d` (valid dates only reach valid dates). -/
def prevDay (d : Date) : Date :=
  if 1 < d.day then ⟨d.year, d.month, d.day - 1⟩
  else if 1 < d.month then ⟨d.year, d.month - 1, daysInMonth d.year (d.month - 1)⟩
  else ⟨d.year - 1, 12, 31⟩

/-- `d - timedelta(days = n)`. -/
def subDays : Date → ℕ → Date
  | d, 0 => d
  | d, n + 1 => subDays (prevDay d) n

/-- `d - pd.DateOffset(years=1)`: replace the year, rolling Feb 29 back to
Feb 28 when the previous year is not a leap year. -/
def subOneYearClamped (d : Date) : Date :=
  if d.month = 2 ∧ d.day = 29 ∧ isLeapYear (d.year - 1) = false then ⟨d.year - 1, 2, 28⟩
  else ⟨d.year - 1, d.month, d.day⟩

/-- `datetime.replace(year = y)`: raises `ValueError` (here `none`) when the
day does not exist in the target year's month. -/
def replaceYear (d : Date) (y : ℕ) : Option Date :=
  if d.day ≤ daysInMonth y d.month then some ⟨y, d.month, d.day⟩ else none

example : dayOfWeek ⟨2024, 4, 1⟩ = 0 := by decide
example : dayOfWeek ⟨2025, 10, 12⟩ = 6 := by decide
example : dateDiffDays ⟨2025, 2, 28⟩ ⟨2025, 3, 1⟩ = 1 := by decide
example : subDays ⟨2024, 3, 1⟩ 1 = ⟨2024, 2, 29⟩ := by decide

/-! ## Period Resolver: comparison ranges (`get_comparative_period`) -/

namespace canopy

/-- `earthday_canopy.get_comparative_period` (lines 756-769): replaces the
year on both endpoints with `datetime.replace`, hence `none` on Feb 29
inputs whose previous year is not leap. -/
def get_comparative_period (current_start current_end : Date) : Option (Date × Date) := do
  let last_year_start ← replaceYear current_start (current_start.year - 1)
  let last_year_end ← replaceYear current_end (current_end.year - 1)
  return (last_year_start, last_year_end)

end canopy

namespace westin

/-- `earthday_westin.get_comparative_period` (lines 288-294): shift the end
back one year with `pd.DateOffset(years=1)` and recover the start by the
current range's day count.  (`days_diff` is nonnegative whenever
`current_start <= current_end`, the `DateRange` invariant.) -/
def get_comparative_period (current_start current_end : Date) : Date × Date :=
  let days_diff := (dateDiffDays current_start current_end).toNat
  let last_year_end := subOneYearClamped current_end
  let last_year_start := subDays last_year_end days_diff
  (last_year_start, last_year_end)

end westin

namespace camden

/-- `earthday_camden.get_comparative_period` (lines 1023-1029), textually the
same routine as the westin variant. -/
def get_comparative_period (current_start current_end : Date) : Date × Date :=
  let days_diff := (dateDiffDays current_start current_end).toNat
  let last_year_end := subOneYearClamped current_end
  let last_year_start := subDays last_year_end days_diff
  (last_year_start, last_year_end)

end camden

/-! ## Day Matcher -/

/-- One row of a single-hotel series: the `Date` and `Total Usage` columns. -/
structure Row : Type where
  date : Date
  usage : ℚ
deriving DecidableEq, Repr

/-- Sum of the `Total Usage` column (`.sum()`; 0 on an empty selection). -/
def sumUsage (rows : List Row) : ℚ := (rows.map Row.usage).sum

/-- `.mean()` of the `Total Usage` column: `nan` on an empty selection. -/
def meanUsage (rows : List Row) : PyFloat :=
  if rows.length = 0 then PyFloat.nan else PyFloat.fin (sumUsage rows / rows.length)

/-- The `strftime('%m-%d')` matching key, as the (zero-padded string keys are
in bijection with the) month/day pair. -/
def monthDayKey (d : Date) : ℕ × ℕ := (d.month, d.day)

/-- `(day_of_month - 1) // 7 + 1`. -/
def weekOfMonth (d : Date) : ℕ := (d.day - 1) / 7 + 1

/-- The westin `match_key` string `month-week_of_month-day_of_week`, as the
corresponding triple. -/
def westinKey (d : Date) : ℕ × ℕ × ℕ := (d.month, weekOfMonth d, dayOfWeek d)

/-- Result of `get_matching_day_pairs` (both variants). -/
structure MatchedPairs : Type where
  current_data : List Row
  compare_data : List Row
  matched_day_count : ℕ
  expected_day_count : ℤ
  match_percentage : ℚ
deriving DecidableEq, Repr

/-- Common body of `get_matching_day_pairs` in the canopy (lines 629-661,
key `strftime('%m-%d')`) and westin (lines 163-209, key
`month-week_of_month-day_of_week`) files, which differ only in the match-key
column: filter both ranges, intersect the key sets, and keep only rows whose
key lies in the intersection.  `match_percentage` divides two Python ints;
for a well-formed range (`current_start <= current_end`) the denominator
`expected_day_count` is positive. -/
def getMatchingDayPairs {κ : Type} [DecidableEq κ] (key : Date → κ) (data : List Row)
    (current_start current_end compare_start compare_end : Date) : MatchedPairs :=
  let current_data := data.filter fun r => inRange current_start current_end r.date
  let compare_data := data.filter fun r => inRange compare_start compare_end r.date
  let current_keys := (current_data.map fun r => key r.date).toFinset
  let compare_keys := (compare_data.map fun r => key r.date).toFinset
  let common_keys := current_keys ∩ compare_keys
  let current_matched := current_data.filter fun r => key r.date ∈ common_keys
  let compare_matched := compare_data.filter fun r => key r.date ∈ common_keys
  let total_expected : ℤ := dateDiffDays current_start current_end + 1
  { current_data := current_matched
    compare_data := compare_matched
    matched_day_count := common_keys.card
    expected_day_count := total_expected
    match_percentage := ((common_keys.card : ℚ) / (total_expected : ℚ)) * 100 }

namespace canopy

/-- `earthday_canopy.get_matching_day_pairs`: exact month-day matching. -/
def get_matching_day_pairs (data : List Row)
    (current_start current_end compare_start compare_end : Date) : MatchedPairs :=
  getMatchingDayPairs monthDayKey data current_start current_end compare_start compare_end

end canopy

namespace westin

/-- `earthday_westin.get_matching_day_pairs`: weekday/week-of-month matching. -/
def get_matching_day_pairs (data : List Row)
    (current_start current_end compare_start compare_end : Date) : MatchedPairs :=
  getMatchingDayPairs westinKey data current_start current_end compare_start compare_end

end westin

/-! ## Metrics Calculator -/

/-- The metric fields of `get_matched_kpis` computed from the aggregated
totals (canopy lines 669-750, westin lines 219-276; the two bodies differ
only in `ELECTRICITY_FACTOR` and `avg_guests`). -/
structure KpiCore : Type where
  percent_change : ℚ
  co2_saved : ℚ
  kwh_saved : ℚ
  guest_usage : ℚ
  trees_equivalent : ℤ
  progress_percentage : PyFloat
  remaining_kwh : ℚ
  target_savings_percent : ℚ
deriving DecidableEq, Repr

/-- The calculator stage of `get_matched_kpis`, abstracted over the
per-file constants, applied to `current_total`, `compare_total` and the
matched current-row count.  Steps in source order:
zero-guarded `percent_change`; raw `co2_saved`/`kwh_saved`; guarded
`guest_usage`; `trees_equivalent = int(co2_saved / 22)`; the
`min(100, max(0, …))` progress clamp around an unguarded numpy division by
`compare_total - target_usage`; then the `current_total >= compare_total`
branch that rewrites `kwh_saved`, `co2_saved` and `progress_percentage`. -/
def matchedKpisCalc (factor avg_guests : ℚ) (current_total compare_total : ℚ)
    (n_current : ℕ) : KpiCore :=
  let percent_change : ℚ :=
    if compare_total = 0 then 0 else (current_total - compare_total) / compare_total * 100
  let co2_saved₀ := (compare_total - current_total) * factor
  let kwh_saved₀ := compare_total - current_total
  let guest_usage : ℚ :=
    if 0 < n_current then current_total / ((n_current : ℚ) * avg_guests) else 0
  let trees_equivalent := truncToInt (co2_saved₀ / 22)
  let target_savings_percent : ℚ := 10
  let target_usage := compare_total * (1 - target_savings_percent / 100)
  let progress₀ :=
    PyFloat.pymin (PyFloat.fin 100) (PyFloat.pymax (PyFloat.fin 0)
      ((npDivQ (compare_total - current_total) (compare_total - target_usage)).mul
        (PyFloat.fin 100)))
  let (kwh_saved, co2_saved, progress_percentage) :=
    if compare_total ≤ current_total then ((0 : ℚ), (0 : ℚ), PyFloat.fin 0)
    else (kwh_saved₀, kwh_saved₀ * factor, progress₀)
  let remaining_kwh := max 0 (current_total - target_usage)
  { percent_change := percent_change
    co2_saved := co2_saved
    kwh_saved := kwh_saved
    guest_usage := guest_usage
    trees_equivalent := trees_equivalent
    progress_percentage := progress_percentage
    remaining_kwh := remaining_kwh
    target_savings_percent := target_savings_percent }

/-- The full dictionary returned by `get_matched_kpis`. -/
structure MatchedKpis : Type where
  current_total : ℚ
  compare_total : ℚ
  percent_change : ℚ
  current_daily_avg : PyFloat
  compare_daily_avg : PyFloat
  co2_saved : ℚ
  kwh_saved : ℚ
  matched_day_count : ℕ
  expected_day_count : ℤ
  match_percentage : ℚ
  guest_usage : ℚ
  progress_percentage : PyFloat
  remaining_kwh : ℚ
  target_savings_percent : ℚ
  trees_equivalent : ℤ
deriving DecidableEq, Repr

/-- Common body of `get_matched_kpis` (canopy and westin): run the matcher,
sum and average the matched rows, and apply the calculator. -/
def getMatchedKpis {κ : Type} [DecidableEq κ] (key : Date → κ) (factor avg_guests : ℚ)
    (data : List Row) (current_start current_end compare_start compare_end : Date) :
    MatchedKpis :=
  let matched := getMatchingDayPairs key data current_start current_end compare_start compare_end
  let current_data := matched.current_data
  let compare_data := matched.compare_data
  let current_total := sumUsage current_data
  let compare_total := sumUsage compare_data
  let core := matchedKpisCalc factor avg_guests current_total compare_total current_data.length
  { current_total := current_total
    compare_total := compare_total
    percent_change := core.percent_change
    current_daily_avg := meanUsage current_data
    compare_daily_avg := meanUsage compare_data
    co2_saved := core.co2_saved
    kwh_saved := core.kwh_saved
    matched_day_count := matched.matched_day_count
    expected_day_count := matched.expected_day_count
    match_percentage := matched.match_percentage
    guest_usage := core.guest_usage
    progress_percentage := core.progress_percentage
    remaining_kwh := core.remaining_kwh
    target_savings_percent := core.target_savings_percent
    trees_equivalent := core.trees_equivalent }

namespace canopy

/-- `ELECTRICITY_FACTOR = 0.00020493` (earthday_canopy.py line 50). -/
def ELECTRICITY_FACTOR : ℚ := 20493 / 100000000

/-- `earthday_canopy.get_matched_kpis` (lines 662-753): exact month-day
matching, `avg_guests = 395`. -/
def get_matched_kpis (data : List Row)
    (current_start current_end compare_start compare_end : Date) : MatchedKpis :=
  getMatchedKpis monthDayKey ELECTRICITY_FACTOR 395 data
    current_start current_end compare_start compare_end

end canopy

namespace westin

/-- `ELECTRICITY_FACTOR = 0.20493` (earthday_westin.py line 49). -/
def ELECTRICITY_FACTOR : ℚ := 20493 / 100000

/-- `earthday_westin.get_matched_kpis` (lines 211-276): weekday/week-of-month
matching, `avg_guests = 202`. -/
def get_matched_kpis (data : List Row)
    (current_start current_end compare_start compare_end : Date) : MatchedKpis :=
  getMatchedKpis westinKey ELECTRICITY_FACTOR 202 data
    current_start current_end compare_start compare_end

end westin

namespace camden

/-- `ELECTRICITY_FACTOR = 0.20493` (earthday_camden.py line 902). -/
def ELECTRICITY_FACTOR : ℚ := 20493 / 100000

/-- The dictionary returned by `camden.get_comparison_kpis`. -/
structure ComparisonKpis : Type where
  current_total : ℚ
  compare_total : ℚ
  percent_change : ℚ
  current_daily_avg : PyFloat
  compare_daily_avg : PyFloat
  co2_saved : ℚ
  kwh_saved : ℚ
deriving DecidableEq, Repr

/-- Metric fields of `camden.get_comparison_kpis` computed from the totals. -/
structure ComparisonCore : Type where
  percent_change : ℚ
  co2_saved : ℚ
  kwh_saved : ℚ
deriving DecidableEq, Repr

/-- The calculator stage of `camden.get_comparison_kpis` (lines 1056-1081)
on the two period totals: zero-guarded percent change,
`co2_saved = max(0, (compare_total - current_total) * ELECTRICITY_FACTOR)`,
`kwh_saved = max(0, compare_total - current_total)`. -/
def comparisonKpisCalc (current_total compare_total : ℚ) : ComparisonCore :=
  let percent_change : ℚ :=
    if compare_total = 0 then 0 else (current_total - compare_total) / compare_total * 100
  let co2_saved := (compare_total - current_total) * ELECTRICITY_FACTOR
  { percent_change := percent_change
    co2_saved := max 0 co2_saved
    kwh_saved := max 0 (compare_total - current_total) }

/-- `earthday_camden.get_comparison_kpis` (lines 1048-1081): plain range
filters on both periods — no day matching or pairing of any kind — then the
calculator on the two sums. -/
def get_comparison_kpis (data : List Row)
    (current_start current_end compare_start compare_end : Date) : ComparisonKpis :=
  let current_data := data.filter fun r => inRange current_start current_end r.date
  let compare_data := data.filter fun r => inRange compare_start compare_end r.date
  let current_total := sumUsage current_data
  let compare_total := sumUsage compare_data
  let core := comparisonKpisCalc current_total compare_total
  { current_total := current_total
    compare_total := compare_total
    percent_change := core.percent_change
    current_daily_avg := meanUsage current_data
    compare_daily_avg := meanUsage compare_data
    co2_saved := core.co2_saved
    kwh_saved := core.kwh_saved }

end camden

namespace cie

/-- `ELECTRICITY_FACTOR = 0.20493` (earthday_cie.py line 20). -/
def ELECTRICITY_FACTOR : ℚ := 20493 / 100000

/-- One month-aggregated row of the cie frame for the selected hotel:
`Year`, `MonthNum` and the hotel's usage column. -/
structure CieRow : Type where
  year : ℕ
  monthNum : ℕ
  usage : ℚ
deriving DecidableEq, Repr

/-- The dictionary returned by `calculate_q1_comparison`. -/
structure Q1Result : Type where
  current_year : ℕ
  previous_year : ℕ
  current_total : ℚ
  previous_total : ℚ
  percent_change : PyFloat
  energy_saved : ℚ
  co2_prevented : ℚ
  months_compared : ℕ
deriving DecidableEq, Repr

/-- `earthday_cie.calculate_q1_comparison` (lines 65-117): pick the last two
years present, filter both to months 1-3, guard only on *emptiness* of the
two selections, then compute `percent_change` by an **unguarded** division by
`previous_total` (a numpy scalar: division by zero yields `inf`/`nan`, no
exception, so the surrounding `try/except` does not trigger).
`energy_saved = previous_total - current_total if percent_change < 0 else 0`. -/
def calculate_q1_comparison (df : List CieRow) : Option Q1Result :=
  let q1_months : List ℕ := [1, 2, 3]
  let years := ((df.map CieRow.year).dedup).insertionSort (· ≤ ·)
  if years.length < 2 then none else
  let current_year := years.getD (years.length - 1) 0
  let previous_year := years.getD (years.length - 2) 0
  let current_data := df.filter fun r => r.year == current_year && q1_months.contains r.monthNum
  let previous_data := df.filter fun r => r.year == previous_year && q1_months.contains r.monthNum
  if current_data.length = 0 ∨ previous_data.length = 0 then none else
  let current_total := (current_data.map CieRow.usage).sum
  let previous_total := (previous_data.map CieRow.usage).sum
  let percent_change := (npDivQ (current_total - previous_total) previous_total).mul (PyFloat.fin 100)
  let energy_saved := if percent_change.lt (PyFloat.fin 0) then previous_total - current_total else 0
  let co2_prevented := energy_saved * ELECTRICITY_FACTOR
  some { current_year := current_year
         previous_year := previous_year
         current_total := current_total
         previous_total := previous_total
         percent_change := percent_change
         energy_saved := energy_saved
         co2_prevented := co2_prevented
         months_compared := current_data.length }

end cie

namespace fourc

/-- `4cgroup.mpan_to_hotel` (lines 48-54): the five configured hotels. -/
def mpan_to_hotel : List (String × String) :=
  [("2500021277783", "Westin"), ("1200051315859", "Camden"), ("2500021281362", "Canopy"),
   ("1200052502710", "EH"), ("1050000997145", "St Albans")]

/-- `list(mpan_to_hotel.values())`. -/
def allHotels : List String := mpan_to_hotel.map Prod.snd

/-- `ELECTRICITY_FACTOR = 0.00020493` (4cgroup.py line 76). -/
def ELECTRICITY_FACTOR : ℚ := 20493 / 100000000

/-- One row of the multi-hotel frame: `Date`, `Hotel`, `Total Usage`. -/
structure HRow : Type where
  date : Date
  hotel : String
  usage : ℚ
deriving DecidableEq, Repr

/-- `4cgroup.find_available_dates` (lines 208-233): the unique dates of the
given year for which **every** hotel of `mpan_to_hotel` has at least one row,
in sorted order. -/
def find_available_dates (data : List HRow) (year : ℕ) : List Date :=
  let year_data := data.filter fun r => r.date.year == year
  let all_dates := (year_data.map HRow.date).dedup
  let available_dates := all_dates.filter fun d =>
    allHotels.all fun h => ((year_data.filter fun r => r.date == d).map HRow.hotel).contains h
  available_dates.insertionSort (fun a b => Date.le a b = true)

/-- Result of `find_matching_days`. -/
structure MatchingDays : Type where
  current_dates : List Date
  previous_dates : List Date
deriving DecidableEq, Repr

/-- `4cgroup.find_matching_days` (lines 236-270): intersect the `'%m-%d'`
keys of the two years' all-hotel available dates; optionally restrict the
current side to `[start_date, end_date]` and the previous side to the keys
surviving that restriction. -/
def find_matching_days (data : List HRow) (current_year previous_year : ℕ)
    (dateRange : Option (Date × Date)) : MatchingDays :=
  let current_year_dates := find_available_dates data current_year
  let previous_year_dates := find_available_dates data previous_year
  let common_keys :=
    (current_year_dates.map monthDayKey).toFinset ∩ (previous_year_dates.map monthDayKey).toFinset
  let matching_current_dates := current_year_dates.filter fun d => monthDayKey d ∈ common_keys
  let matching_previous_dates := previous_year_dates.filter fun d => monthDayKey d ∈ common_keys
  match dateRange with
  | none =>
      { current_dates := matching_current_dates.insertionSort (fun a b => Date.le a b = true)
        previous_dates := matching_previous_dates.insertionSort (fun a b => Date.le a b = true) }
  | some (start_date, end_date) =>
      let matching_current_dates :=
        matching_current_dates.filter fun d => Date.le start_date d && Date.le d end_date
      let month_days_in_range := matching_current_dates.map monthDayKey
      let matching_previous_dates :=
        matching_previous_dates.filter fun d => month_days_in_range.contains (monthDayKey d)
      { current_dates := matching_current_dates.insertionSort (fun a b => Date.le a b = true)
        previous_dates := matching_previous_dates.insertionSort (fun a b => Date.le a b = true) }

/-- Per-hotel metrics of `4cgroup.calculate_hotel_metrics` (lines 296-345,
the body of the per-hotel loop) on the two matched totals. -/
structure HotelMetrics : Type where
  current_total : ℚ
  previous_total : ℚ
  percent_change : ℚ
  progress_percentage : PyFloat
  energy_reduction : ℚ
  target_savings_percent : ℚ
  kwh_saved : ℚ
deriving DecidableEq, Repr

/-- The calculation of `calculate_hotel_metrics` for one hotel, given the
summed usage over the matched dates of each year: guarded percent change;
when `current_total < previous_total`, the progress clamp
`min(100, (previous_total - current_total) / (previous_total - target_usage) * 100)`
(numpy division, unguarded) and `kwh_saved = previous_total - current_total`;
otherwise both are 0. -/
def calculateHotelMetricsCore (current_total previous_total : ℚ) : HotelMetrics :=
  let target_savings_percent : ℚ := 10
  let percent_change : ℚ :=
    if previous_total = 0 then 0 else (current_total - previous_total) / previous_total * 100
  let target_usage := previous_total * (1 - target_savings_percent / 100)
  let (progress_percentage, kwh_saved) :=
    if current_total < previous_total then
      (PyFloat.pymin (PyFloat.fin 100)
        ((npDivQ (previous_total - current_total) (previous_total - target_usage)).mul
          (PyFloat.fin 100)),
       previous_total - current_total)
    else (PyFloat.fin 0, (0 : ℚ))
  { current_total := current_total
    previous_total := previous_total
    percent_change := percent_change
    progress_percentage := progress_percentage
    energy_reduction := |min 0 percent_change|
    target_savings_percent := target_savings_percent
    kwh_saved := kwh_saved }

end fourc

/-! ## Spec-modelled claim variant for the CalendarOffset aggregation -/

/-- Modelled from the spec (the claimed CalendarOffset semantics, which is
not what `camden.get_comparison_kpis` implements): a current-range day
contributes to the current total only when its `date - 1 year` partner also
exists in the series. -/
def claimOffsetCurrentTotal (data : List Row) (current_start current_end : Date) : ℚ :=
  sumUsage (data.filter fun r =>
    inRange current_start current_end r.date &&
      (data.map Row.date).contains (subOneYearClamped r.date))

/-! ## Claims -/

/-- C6 (corrected), counterexample: on the range 2025-02-28 … 2025-03-01 the
canopy variant (plain year replacement) returns comparison start 2024-02-28,
while the westin variant (end minus one year, start recovered from the day
count) returns 2024-02-29 — the three files do not implement one common
routine. -/
theorem comparative_period_variants_differ_cex :
    canopy.get_comparative_period ⟨2025, 2, 28⟩ ⟨2025, 3, 1⟩ =
      some (⟨2024, 2, 28⟩, ⟨2024, 3, 1⟩) ∧
    westin.get_comparative_period ⟨2025, 2, 28⟩ ⟨2025, 3, 1⟩ =
      (⟨2024, 2, 29⟩, ⟨2024, 3, 1⟩) := by
  constructor
  · rfl
  · decide

/-- C6 (corrected): the westin and camden `get_comparative_period`
implementations are the same function — they agree on every input; the
canopy implementation is a different routine (see the counterexample). -/
theorem westin_camden_comparative_period_eq :
    ∀ current_start current_end : Date,
      westin.get_comparative_period current_start current_end =
        camden.get_comparative_period current_start current_end :=
  fun _ _ => rfl

/-- C8 (corrected), counterexample: with the series containing only
2025-04-01 (usage 5), current range 2025-04-01 … 2025-04-01 and comparison
range 2024-04-01 … 2024-04-01, the one-year-offset partner 2024-04-01 is
missing from the series, yet `get_comparison_kpis` still counts the day:
`current_total = 5`, whereas the claimed drop-unpaired-days semantics
(`claimOffsetCurrentTotal`) yields 0. -/
theorem camden_no_pairing_cex :
    (camden.get_comparison_kpis [⟨⟨2025, 4, 1⟩, 5⟩]
        ⟨2025, 4, 1⟩ ⟨2025, 4, 1⟩ ⟨2024, 4, 1⟩ ⟨2024, 4, 1⟩).current_total = 5 ∧
    claimOffsetCurrentTotal [⟨⟨2025, 4, 1⟩, 5⟩] ⟨2025, 4, 1⟩ ⟨2025, 4, 1⟩ = 0 := by
  constructor <;>
    simp [camden.get_comparison_kpis, camden.comparisonKpisCalc, claimOffsetCurrentTotal,
      sumUsage, inRange, Date.le, subOneYearClamped, isLeapYear, List.filter]

/-- C8 (corrected, amended): `camden.get_comparison_kpis` performs no
pairing at all: the current total is the sum over every series row in the
current range and the comparison total the sum over every row in the
comparison range, regardless of whether a day's one-year-offset partner
exists in the series. -/
theorem camden_totals_are_plain_range_sums :
    ∀ (data : List Row) (current_start current_end compare_start compare_end : Date),
      (camden.get_comparison_kpis data current_start current_end
          compare_start compare_end).current_total =
        sumUsage (data.filter fun r => inRange current_start current_end r.date) ∧
      (camden.get_comparison_kpis data current_start current_end
          compare_start compare_end).compare_total =
        sumUsage (data.filter fun r => inRange compare_start compare_end r.date) :=
  fun _ _ _ _ _ => ⟨rfl, rfl⟩

/-! ### Helper lemmas about the `get_matched_kpis` calculator -/

lemma matchedKpisCalc_of_le (factor avg_guests : ℚ) {cur cmp : ℚ} (n : ℕ)
    (h : cmp ≤ cur) :
    (matchedKpisCalc factor avg_guests cur cmp n).kwh_saved = 0 ∧
    (matchedKpisCalc factor avg_guests cur cmp n).co2_saved = 0 ∧
    (matchedKpisCalc factor avg_guests cur cmp n).progress_percentage = PyFloat.fin 0 := by
  unfold matchedKpisCalc
  simp [h]

lemma matchedKpisCalc_of_lt (factor avg_guests : ℚ) {cur cmp : ℚ} (n : ℕ)
    (h : cur < cmp) :
    (matchedKpisCalc factor avg_guests cur cmp n).kwh_saved = cmp - cur ∧
    (matchedKpisCalc factor avg_guests cur cmp n).co2_saved = (cmp - cur) * factor ∧
    (matchedKpisCalc factor avg_guests cur cmp n).progress_percentage =
      PyFloat.pymin (PyFloat.fin 100) (PyFloat.pymax (PyFloat.fin 0)
        ((npDivQ (cmp - cur) (cmp - cmp * (1 - 10 / 100))).mul (PyFloat.fin 100))) := by
  unfold matchedKpisCalc
  simp [not_le.2 h]

lemma matchedKpisCalc_percent_change (factor avg_guests : ℚ) (cur cmp : ℚ) (n : ℕ) :
    (matchedKpisCalc factor avg_guests cur cmp n).percent_change =
      if cmp = 0 then 0 else (cur - cmp) / cmp * 100 := by
  unfold matchedKpisCalc
  by_cases hc : cmp ≤ cur <;> simp [hc]

lemma comparisonKpisCalc_fields (cur cmp : ℚ) :
    (camden.comparisonKpisCalc cur cmp).kwh_saved = max 0 (cmp - cur) ∧
    (camden.comparisonKpisCalc cur cmp).co2_saved =
      max 0 ((cmp - cur) * camden.ELECTRICITY_FACTOR) ∧
    (camden.comparisonKpisCalc cur cmp).percent_change =
      if cmp = 0 then 0 else (cur - cmp) / cmp * 100 := by
  unfold camden.comparisonKpisCalc
  exact ⟨rfl, rfl, rfl⟩

/-- C2 (confirmed): for every aggregate input, in both the canopy
`get_matched_kpis` calculator and the camden `get_comparison_kpis`
calculator, `kwh_saved` is `comparison_total - current_total` (strictly
positive) when `current_total < comparison_total` and `0` otherwise, and
`co2_saved = kwh_saved * ELECTRICITY_FACTOR` (each file's factor). -/
theorem savings_sign_invariant (current_total compare_total : ℚ) (n_current : ℕ) :
    ((current_total < compare_total →
        (matchedKpisCalc canopy.ELECTRICITY_FACTOR 395 current_total compare_total
            n_current).kwh_saved = compare_total - current_total ∧
        0 < (matchedKpisCalc canopy.ELECTRICITY_FACTOR 395 current_total compare_total
            n_current).kwh_saved) ∧
      (compare_total ≤ current_total →
        (matchedKpisCalc canopy.ELECTRICITY_FACTOR 395 current_total compare_total
            n_current).kwh_saved = 0) ∧
      (matchedKpisCalc canopy.ELECTRICITY_FACTOR 395 current_total compare_total
          n_current).co2_saved =
        (matchedKpisCalc canopy.ELECTRICITY_FACTOR 395 current_total compare_total
            n_current).kwh_saved * canopy.ELECTRICITY_FACTOR) ∧
    ((current_total < compare_total →
        (camden.comparisonKpisCalc current_total compare_total).kwh_saved =
          compare_total - current_total ∧
        0 < (camden.comparisonKpisCalc current_total compare_total).kwh_saved) ∧
      (compare_total ≤ current_total →
        (camden.comparisonKpisCalc current_total compare_total).kwh_saved = 0) ∧
      (camden.comparisonKpisCalc current_total compare_total).co2_saved =
        (camden.comparisonKpisCalc current_total compare_total).kwh_saved *
          camden.ELECTRICITY_FACTOR) := by
  obtain ⟨hk, hc, -⟩ := comparisonKpisCalc_fields current_total compare_total
  constructor
  · refine ⟨fun h => ?_, fun h => (matchedKpisCalc_of_le _ _ _ h).1, ?_⟩
    · refine ⟨(matchedKpisCalc_of_lt _ _ _ h).1, ?_⟩
      rw [(matchedKpisCalc_of_lt _ _ _ h).1]
      linarith
    · rcases le_or_lt compare_total current_total with h | h
      · rw [(matchedKpisCalc_of_le _ _ _ h).1, (matchedKpisCalc_of_le _ _ _ h).2.1, zero_mul]
      · rw [(matchedKpisCalc_of_lt _ _ _ h).1, (matchedKpisCalc_of_lt _ _ _ h).2.1]
  · refine ⟨fun h => ?_, fun h => ?_, ?_⟩
    · rw [hk, max_eq_right (by linarith)]
      exact ⟨rfl, by linarith⟩
    · rw [hk, max_eq_left (by linarith)]
    · rw [hk, hc, max_mul_of_nonneg _ _ (by norm_num [camden.ELECTRICITY_FACTOR] : (0:ℚ) ≤ camden.ELECTRICITY_FACTOR), zero_mul]

/-- C2 witness: at `current_total = 90`, `comparison_total = 100` the canopy
calculator reports 10 kWh saved, and at `current_total = 100`,
`comparison_total = 90` the camden calculator reports 0. -/
theorem savings_sign_invariant_witness :
    (matchedKpisCalc canopy.ELECTRICITY_FACTOR 395 90 100 10).kwh_saved = 10 ∧
    (camden.comparisonKpisCalc 100 90).kwh_saved = 0 := by
  constructor
  · have h := ((savings_sign_invariant 90 100 10).1.1 (by norm_num)).1
    rw [h]; norm_num
  · exact (savings_sign_invariant 100 90 10).2.2.1 (by norm_num)


/-- C1 (corrected), counterexample: a frame whose previous year (2024) has a
Q1 row with zero usage and whose current year (2025) has a Q1 row with usage
5 passes both emptiness guards, and `calculate_q1_comparison` then divides by
`previous_total = 0` with **no** zero guard: the returned `percent_change` is
`+inf` (a numpy float division, not an exception), not the claimed `0`. -/
theorem cie_zero_comparison_cex :
    (cie.calculate_q1_comparison [⟨2024, 1, 0⟩, ⟨2025, 1, 5⟩]).map
        (fun r => (r.previous_total, r.percent_change)) =
      some (0, PyFloat.pinf) := by
  have h1 : ((([⟨2024, 1, 0⟩, ⟨2025, 1, 5⟩] : List cie.CieRow).map
      cie.CieRow.year).dedup).insertionSort (· ≤ ·) = [2024, 2025] := by decide
  rw [cie.calculate_q1_comparison, h1]
  norm_num [List.filter, npDivQ, PyFloat.mul,
    show ((2024:ℕ) == 2025) = false from rfl, show ((2025:ℕ) == 2025) = true from rfl,
    show ((2025:ℕ) == 2024) = false from rfl, show ((2024:ℕ) == 2024) = true from rfl,
    List.contains]

/-- C1 (corrected, amended): in the canopy and westin `get_matched_kpis`
calculators, `comparison_total = 0` yields `percent_change = 0`,
`kwh_saved = 0`, `co2_saved = 0` (and `progress_percentage = 0`), with no
NaN/infinity among those fields, for every nonnegative `current_total`; the
cie `calculate_q1_comparison`, however, has no zero-comparison guard and
returns an infinite (or NaN) `percent_change` when the previous-year total
is zero (see the counterexample). -/
theorem zero_comparison_guard (current_total : ℚ) (n_current : ℕ)
    (h : 0 ≤ current_total) :
    (matchedKpisCalc canopy.ELECTRICITY_FACTOR 395 current_total 0 n_current).percent_change
        = 0 ∧
    (matchedKpisCalc canopy.ELECTRICITY_FACTOR 395 current_total 0 n_current).kwh_saved = 0 ∧
    (matchedKpisCalc canopy.ELECTRICITY_FACTOR 395 current_total 0 n_current).co2_saved = 0 ∧
    (matchedKpisCalc canopy.ELECTRICITY_FACTOR 395 current_total 0 n_current).progress_percentage
        = PyFloat.fin 0 ∧
    (matchedKpisCalc westin.ELECTRICITY_FACTOR 202 current_total 0 n_current).percent_change
        = 0 ∧
    (matchedKpisCalc westin.ELECTRICITY_FACTOR 202 current_total 0 n_current).kwh_saved = 0 ∧
    (matchedKpisCalc westin.ELECTRICITY_FACTOR 202 current_total 0 n_current).co2_saved = 0 ∧
    (matchedKpisCalc westin.ELECTRICITY_FACTOR 202 current_total 0 n_current).progress_percentage
        = PyFloat.fin 0 := by
  obtain ⟨k₁, c₁, p₁⟩ := matchedKpisCalc_of_le canopy.ELECTRICITY_FACTOR 395 n_current h
  obtain ⟨k₂, c₂, p₂⟩ := matchedKpisCalc_of_le westin.ELECTRICITY_FACTOR 202 n_current h
  refine ⟨?_, k₁, c₁, p₁, ?_, k₂, c₂, p₂⟩ <;>
    simp [matchedKpisCalc_percent_change]

/-- C1 witness: the amended guarantee at `current_total = 5` with one
matched day. -/
theorem zero_comparison_guard_witness :
    (matchedKpisCalc canopy.ELECTRICITY_FACTOR 395 5 0 1).percent_change = 0 ∧
    (matchedKpisCalc canopy.ELECTRICITY_FACTOR 395 5 0 1).kwh_saved = 0 := by
  have h := zero_comparison_guard 5 1 (by norm_num)
  exact ⟨h.1, h.2.1⟩

/-! ### Helper lemmas about the progress clamp chain -/

lemma pymax_fin (a b : ℚ) :
    PyFloat.pymax (PyFloat.fin a) (PyFloat.fin b) = PyFloat.fin (max a b) := by
  rcases le_or_lt b a with h | h
  · rw [max_eq_left h]
    simp [PyFloat.pymax, PyFloat.lt, not_lt.2 h]
  · rw [max_eq_right h.le]
    simp [PyFloat.pymax, PyFloat.lt, h]

lemma pymin_fin (a b : ℚ) :
    PyFloat.pymin (PyFloat.fin a) (PyFloat.fin b) = PyFloat.fin (min a b) := by
  rcases le_or_lt a b with h | h
  · rw [min_eq_left h]
    simp [PyFloat.pymin, PyFloat.lt, not_lt.2 h]
  · rw [min_eq_right h.le]
    simp [PyFloat.pymin, PyFloat.lt, h]

lemma fourcCore_of_lt {cur prev : ℚ} (h : cur < prev) :
    (fourc.calculateHotelMetricsCore cur prev).progress_percentage =
      PyFloat.pymin (PyFloat.fin 100)
        ((npDivQ (prev - cur) (prev - prev * (1 - 10 / 100))).mul (PyFloat.fin 100)) ∧
    (fourc.calculateHotelMetricsCore cur prev).kwh_saved = prev - cur := by
  unfold fourc.calculateHotelMetricsCore
  simp [h]

lemma fourcCore_of_le {cur prev : ℚ} (h : prev ≤ cur) :
    (fourc.calculateHotelMetricsCore cur prev).progress_percentage = PyFloat.fin 0 ∧
    (fourc.calculateHotelMetricsCore cur prev).kwh_saved = 0 := by
  unfold fourc.calculateHotelMetricsCore
  simp [not_lt.2 h]

/-- The clamp chain of the canopy/westin progress computation on a positive
comparison total: it evaluates to the finite
`min 100 ((cmp - cur) / (cmp - cmp * (1 - 10/100)) * 100)` when `cur < cmp`. -/
lemma matchedKpisCalc_progress_of_lt_pos (factor avg_guests : ℚ) {cur cmp : ℚ} (n : ℕ)
    (hlt : cur < cmp) (hpos : 0 < cmp) :
    (matchedKpisCalc factor avg_guests cur cmp n).progress_percentage =
      PyFloat.fin (min 100 ((cmp - cur) / (cmp - cmp * (1 - 10 / 100)) * 100)) := by
  have hden : cmp - cmp * (1 - 10 / 100) = cmp / 10 := by ring
  have hdenne : cmp - cmp * (1 - 10 / 100) ≠ 0 := by rw [hden]; positivity
  have hratio : 0 < (cmp - cur) / (cmp - cmp * (1 - 10 / 100)) * 100 := by
    rw [hden]
    exact mul_pos (div_pos (by linarith) (by positivity)) (by norm_num)
  rw [(matchedKpisCalc_of_lt factor avg_guests n hlt).2.2]
  rw [npDivQ, if_neg hdenne, PyFloat.mul, pymax_fin, max_eq_right hratio.le, pymin_fin]

/-- The 4cgroup progress computation on a positive previous total, when
`cur < prev`. -/
lemma fourcCore_progress_of_lt_pos {cur prev : ℚ} (hlt : cur < prev) (hpos : 0 < prev) :
    (fourc.calculateHotelMetricsCore cur prev).progress_percentage =
      PyFloat.fin (min 100 ((prev - cur) / (prev - prev * (1 - 10 / 100)) * 100)) := by
  have hdenne : prev - prev * (1 - 10 / 100) ≠ 0 := by
    have : prev - prev * (1 - 10 / 100) = prev / 10 := by ring
    rw [this]
    positivity
  rw [(fourcCore_of_lt hlt).1, npDivQ, if_neg hdenne, PyFloat.mul, pymin_fin]

/-- C3 (confirmed): for every aggregate input with `comparison_total > 0`,
in both the canopy `get_matched_kpis` calculator and the 4cgroup
`calculate_hotel_metrics` calculator: when `current_total < comparison_total`,
`progress_percentage = min(100, (comparison_total - current_total) /
(comparison_total - target_usage) * 100)` with
`target_usage = comparison_total * (1 - 10/100)`; otherwise it is 0; a
reduction at or beyond the 10% target yields exactly 100; and the value
never exceeds 100. -/
theorem progress_clamp (current_total compare_total : ℚ) (n_current : ℕ)
    (h : 0 < compare_total) :
    ((current_total < compare_total →
        (matchedKpisCalc canopy.ELECTRICITY_FACTOR 395 current_total compare_total
            n_current).progress_percentage =
          PyFloat.fin (min 100 ((compare_total - current_total) /
            (compare_total - compare_total * (1 - 10 / 100)) * 100))) ∧
      (compare_total ≤ current_total →
        (matchedKpisCalc canopy.ELECTRICITY_FACTOR 395 current_total compare_total
            n_current).progress_percentage = PyFloat.fin 0) ∧
      (compare_total * (10 / 100) ≤ compare_total - current_total →
        (matchedKpisCalc canopy.ELECTRICITY_FACTOR 395 current_total compare_total
            n_current).progress_percentage = PyFloat.fin 100) ∧
      (∀ q : ℚ, (matchedKpisCalc canopy.ELECTRICITY_FACTOR 395 current_total compare_total
            n_current).progress_percentage = PyFloat.fin q → q ≤ 100)) ∧
    ((current_total < compare_total →
        (fourc.calculateHotelMetricsCore current_total compare_total).progress_percentage =
          PyFloat.fin (min 100 ((compare_total - current_total) /
            (compare_total - compare_total * (1 - 10 / 100)) * 100))) ∧
      (compare_total ≤ current_total →
        (fourc.calculateHotelMetricsCore current_total compare_total).progress_percentage =
          PyFloat.fin 0) ∧
      (compare_total * (10 / 100) ≤ compare_total - current_total →
        (fourc.calculateHotelMetricsCore current_total compare_total).progress_percentage =
          PyFloat.fin 100) ∧
      (∀ q : ℚ, (fourc.calculateHotelMetricsCore current_total compare_total).progress_percentage =
          PyFloat.fin q → q ≤ 100)) := by
  have htarget : ∀ hlt : compare_total * (10 / 100) ≤ compare_total - current_total,
      min 100 ((compare_total - current_total) /
        (compare_total - compare_total * (1 - 10 / 100)) * 100) = 100 := by
    intro hge
    have hden : compare_total - compare_total * (1 - 10 / 100) = compare_total / 10 := by ring
    have hdpos : 0 < compare_total / 10 := by positivity
    have h1 : (1 : ℚ) ≤ (compare_total - current_total) /
        (compare_total - compare_total * (1 - 10 / 100)) := by
      rw [hden, le_div_iff hdpos]
      linarith
    exact min_eq_left (by nlinarith)
  have hlt_of_target : compare_total * (10 / 100) ≤ compare_total - current_total →
      current_total < compare_total := fun hge => by nlinarith
  constructor
  · refine ⟨fun hlt => matchedKpisCalc_progress_of_lt_pos _ _ _ hlt h,
      fun hle => (matchedKpisCalc_of_le _ _ _ hle).2.2, fun hge => ?_, fun q hq => ?_⟩
    · rw [matchedKpisCalc_progress_of_lt_pos _ _ _ (hlt_of_target hge) h, htarget hge]
    · rcases le_or_lt compare_total current_total with hle | hlt
      · rw [(matchedKpisCalc_of_le canopy.ELECTRICITY_FACTOR 395 n_current hle).2.2] at hq
        simp only [PyFloat.fin.injEq] at hq
        rw [← hq]
        norm_num
      · rw [matchedKpisCalc_progress_of_lt_pos _ _ _ hlt h] at hq
        simp only [PyFloat.fin.injEq] at hq
        rw [← hq]
        exact min_le_left _ _
  · refine ⟨fun hlt => fourcCore_progress_of_lt_pos hlt h,
      fun hle => (fourcCore_of_le hle).1, fun hge => ?_, fun q hq => ?_⟩
    · rw [fourcCore_progress_of_lt_pos (hlt_of_target hge) h, htarget hge]
    · rcases le_or_lt compare_total current_total with hle | hlt
      · rw [(fourcCore_of_le hle).1] at hq
        simp only [PyFloat.fin.injEq] at hq
        rw [← hq]
        norm_num
      · rw [fourcCore_progress_of_lt_pos hlt h] at hq
        simp only [PyFloat.fin.injEq] at hq
        rw [← hq]
        exact min_le_left _ _

/-- C3 witness: a 10% reduction (90 against 100) reaches exactly 100%
progress in both variants. -/
theorem progress_clamp_witness :
    (matchedKpisCalc canopy.ELECTRICITY_FACTOR 395 90 100 10).progress_percentage =
      PyFloat.fin 100 ∧
    (fourc.calculateHotelMetricsCore 90 100).progress_percentage = PyFloat.fin 100 := by
  have h := progress_clamp 90 100 10 (by norm_num)
  exact ⟨h.1.2.2.1 (by norm_num), h.2.2.2.1 (by norm_num)⟩

/-- Whatever the totals, the canopy/westin progress chain ends finite: with a
nonzero comparison total the division is finite and the clamp keeps it so;
with a zero comparison total and `cur < cmp = 0` the numpy division yields
`+inf`, `max(0, ·)` keeps it and `min(100, ·)` collapses it to `100`; and in
the `cur >= cmp` branch the code overwrites the value with `0`. -/
lemma matchedKpisCalc_progress_fin (factor avg_guests cur cmp : ℚ) (n : ℕ) :
    ∃ q : ℚ, (matchedKpisCalc factor avg_guests cur cmp n).progress_percentage =
      PyFloat.fin q := by
  rcases le_or_lt cmp cur with h | h
  · exact ⟨0, (matchedKpisCalc_of_le factor avg_guests n h).2.2⟩
  · rw [(matchedKpisCalc_of_lt factor avg_guests n h).2.2]
    by_cases hz : cmp - cmp * (1 - 10 / 100) = 0
    · have hcmp : cmp = 0 := by
        have : cmp * (10 / 100) = 0 := by linarith [hz]
        linarith [mul_eq_zero.1 this |>.elim (fun h => h) (fun h => absurd h (by norm_num))]
      have hpos : 0 < cmp - cur := by linarith
      refine ⟨100, ?_⟩
      rw [npDivQ, if_pos hz, if_neg (ne_of_gt hpos), if_pos hpos]
      simp [PyFloat.mul, PyFloat.pymax, PyFloat.pymin, PyFloat.lt]
    · refine ⟨min 100 (max 0 ((cmp - cur) / (cmp - cmp * (1 - 10 / 100)) * 100)), ?_⟩
      rw [npDivQ, if_neg hz, PyFloat.mul, pymax_fin, pymin_fin]

/-- C5 (confirmed): the Metrics Calculator's divisions never raise — the
`percent_change` and `guest_usage` divisions are explicitly guarded (and so
are exact rationals in this embedding), while the `progress_percentage`
expression divides by `comparison_total - target_usage` **unguarded** on
numpy scalars, which yields `inf`/`nan` rather than an exception; evaluating
it is total, and the returned `progress_percentage` is moreover always a
finite value, for every aggregate input, in both the canopy and westin
variants. -/
theorem metrics_divisions_never_raise (current_total compare_total : ℚ) (n_current : ℕ) :
    (∃ q : ℚ, (matchedKpisCalc canopy.ELECTRICITY_FACTOR 395 current_total compare_total
        n_current).progress_percentage = PyFloat.fin q) ∧
    (∃ q : ℚ, (matchedKpisCalc westin.ELECTRICITY_FACTOR 202 current_total compare_total
        n_current).progress_percentage = PyFloat.fin q) :=
  ⟨matchedKpisCalc_progress_fin _ _ _ _ _, matchedKpisCalc_progress_fin _ _ _ _ _⟩

/-- C9 (corrected), counterexample: a series with a single 2025-04-01 row
compared against an empty 2024 range produces zero comparison rows; the
comparison total is 0, but the comparison daily average is returned as `nan`
(`pandas` mean of an empty selection) — there is no `NoData` signalling in
the returned dictionary. -/
theorem aggregator_nan_average_cex :
    (canopy.get_matched_kpis [⟨⟨2025, 4, 1⟩, 5⟩]
        ⟨2025, 4, 1⟩ ⟨2025, 4, 1⟩ ⟨2024, 4, 1⟩ ⟨2024, 4, 1⟩).compare_daily_avg =
      PyFloat.nan ∧
    (canopy.get_matched_kpis [⟨⟨2025, 4, 1⟩, 5⟩]
        ⟨2025, 4, 1⟩ ⟨2025, 4, 1⟩ ⟨2024, 4, 1⟩ ⟨2024, 4, 1⟩).compare_total = 0 := by
  decide

/-- C9 (corrected, amended): in both the canopy and westin
`get_matched_kpis`, whenever one side of the matched pair set has zero rows,
that side's total is 0 and that side's daily average is returned as `nan` —
the mean of an empty selection — rather than any `NoData` signal. -/
theorem zero_rows_side_aggregation (data : List Row)
    (current_start current_end compare_start compare_end : Date) :
    ((canopy.get_matching_day_pairs data current_start current_end compare_start
          compare_end).compare_data = [] →
      (canopy.get_matched_kpis data current_start current_end compare_start
          compare_end).compare_total = 0 ∧
      (canopy.get_matched_kpis data current_start current_end compare_start
          compare_end).compare_daily_avg = PyFloat.nan) ∧
    ((canopy.get_matching_day_pairs data current_start current_end compare_start
          compare_end).current_data = [] →
      (canopy.get_matched_kpis data current_start current_end compare_start
          compare_end).current_total = 0 ∧
      (canopy.get_matched_kpis data current_start current_end compare_start
          compare_end).current_daily_avg = PyFloat.nan) ∧
    ((westin.get_matching_day_pairs data current_start current_end compare_start
          compare_end).compare_data = [] →
      (westin.get_matched_kpis data current_start current_end compare_start
          compare_end).compare_total = 0 ∧
      (westin.get_matched_kpis data current_start current_end compare_start
          compare_end).compare_daily_avg = PyFloat.nan) ∧
    ((westin.get_matching_day_pairs data current_start current_end compare_start
          compare_end).current_data = [] →
      (westin.get_matched_kpis data current_start current_end compare_start
          compare_end).current_total = 0 ∧
      (westin.get_matched_kpis data current_start current_end compare_start
          compare_end).current_daily_avg = PyFloat.nan) := by
  refine ⟨fun h => ?_, fun h => ?_, fun h => ?_, fun h => ?_⟩ <;>
  · first
      | (unfold canopy.get_matching_day_pairs at h
         unfold canopy.get_matched_kpis getMatchedKpis)
      | (unfold westin.get_matching_day_pairs at h
         unfold westin.get_matched_kpis getMatchedKpis)
    simp only []
    rw [h]
    exact ⟨rfl, rfl⟩

/-- C9 witness: the amended guarantee applied to a concrete series whose
matched pair set is empty on both sides, in both variants. -/
theorem zero_rows_side_aggregation_witness :
    (canopy.get_matched_kpis [⟨⟨2025, 4, 2⟩, 7⟩]
        ⟨2025, 4, 2⟩ ⟨2025, 4, 2⟩ ⟨2024, 4, 2⟩ ⟨2024, 4, 2⟩).compare_total = 0 ∧
    (canopy.get_matched_kpis [⟨⟨2025, 4, 2⟩, 7⟩]
        ⟨2025, 4, 2⟩ ⟨2025, 4, 2⟩ ⟨2024, 4, 2⟩ ⟨2024, 4, 2⟩).compare_daily_avg =
      PyFloat.nan ∧
    (canopy.get_matched_kpis [⟨⟨2025, 4, 2⟩, 7⟩]
        ⟨2025, 4, 2⟩ ⟨2025, 4, 2⟩ ⟨2024, 4, 2⟩ ⟨2024, 4, 2⟩).current_total = 0 ∧
    (westin.get_matched_kpis [⟨⟨2025, 4, 2⟩, 7⟩]
        ⟨2025, 4, 2⟩ ⟨2025, 4, 2⟩ ⟨2024, 4, 2⟩ ⟨2024, 4, 2⟩).compare_daily_avg =
      PyFloat.nan ∧
    (westin.get_matched_kpis [⟨⟨2025, 4, 2⟩, 7⟩]
        ⟨2025, 4, 2⟩ ⟨2025, 4, 2⟩ ⟨2024, 4, 2⟩ ⟨2024, 4, 2⟩).current_daily_avg =
      PyFloat.nan := by
  have h := zero_rows_side_aggregation [⟨⟨2025, 4, 2⟩, 7⟩]
    ⟨2025, 4, 2⟩ ⟨2025, 4, 2⟩ ⟨2024, 4, 2⟩ ⟨2024, 4, 2⟩
  exact ⟨(h.1 (by decide)).1, (h.1 (by decide)).2, (h.2.1 (by decide)).1,
    (h.2.2.1 (by decide)).2, (h.2.2.2 (by decide)).2⟩

/-! ### Membership in the matched pair sets -/

lemma mem_getMatchingDayPairs_current {κ : Type} [DecidableEq κ] (key : Date → κ)
    (data : List Row) (cs ce ks ke : Date) (r : Row) :
    r ∈ (getMatchingDayPairs key data cs ce ks ke).current_data ↔
      r ∈ data ∧ inRange cs ce r.date = true ∧
        ∃ s, s ∈ data ∧ inRange ks ke s.date = true ∧ key s.date = key r.date := by
  unfold getMatchingDayPairs
  simp only [List.mem_filter, decide_eq_true_eq, Finset.mem_inter, List.mem_toFinset, List.mem_map]
  constructor
  · rintro ⟨⟨hd, hr⟩, -, b, ⟨hb, hbr⟩, hbk⟩
    exact ⟨hd, hr, b, hb, hbr, hbk⟩
  · rintro ⟨hd, hr, s, hs, hsr, hsk⟩
    exact ⟨⟨hd, hr⟩, ⟨r, ⟨hd, hr⟩, rfl⟩, s, ⟨hs, hsr⟩, hsk⟩

lemma mem_getMatchingDayPairs_compare {κ : Type} [DecidableEq κ] (key : Date → κ)
    (data : List Row) (cs ce ks ke : Date) (r : Row) :
    r ∈ (getMatchingDayPairs key data cs ce ks ke).compare_data ↔
      r ∈ data ∧ inRange ks ke r.date = true ∧
        ∃ s, s ∈ data ∧ inRange cs ce s.date = true ∧ key s.date = key r.date := by
  unfold getMatchingDayPairs
  simp only [List.mem_filter, decide_eq_true_eq, Finset.mem_inter, List.mem_toFinset, List.mem_map]
  constructor
  · rintro ⟨⟨hd, hr⟩, ⟨b, ⟨hb, hbr⟩, hbk⟩, -⟩
    exact ⟨hd, hr, b, hb, hbr, hbk⟩
  · rintro ⟨hd, hr, s, hs, hsr, hsk⟩
    exact ⟨⟨hd, hr⟩, ⟨s, ⟨hs, hsr⟩, hsk⟩, r, ⟨hd, hr⟩, rfl⟩

/-- C4 (confirmed): under the exact month-day policy
(`canopy.get_matching_day_pairs`), a series row inside the current range is
kept in `current_data` iff some series row inside the comparison range
shares its month and day-of-month (year ignored), and symmetrically for
`compare_data` — i.e. the kept rows are exactly those whose `'%m-%d'` key
lies in the intersection of the two ranges' key sets. -/
theorem exact_month_day_matching (data : List Row)
    (current_start current_end compare_start compare_end : Date) (r : Row) :
    (r ∈ (canopy.get_matching_day_pairs data current_start current_end compare_start
          compare_end).current_data ↔
      r ∈ data ∧ inRange current_start current_end r.date = true ∧
        ∃ s, s ∈ data ∧ inRange compare_start compare_end s.date = true ∧
          s.date.month = r.date.month ∧ s.date.day = r.date.day) ∧
    (r ∈ (canopy.get_matching_day_pairs data current_start current_end compare_start
          compare_end).compare_data ↔
      r ∈ data ∧ inRange compare_start compare_end r.date = true ∧
        ∃ s, s ∈ data ∧ inRange current_start current_end s.date = true ∧
          s.date.month = r.date.month ∧ s.date.day = r.date.day) := by
  unfold canopy.get_matching_day_pairs
  constructor
  · rw [mem_getMatchingDayPairs_current]
    simp [monthDayKey, Prod.ext_iff]
  · rw [mem_getMatchingDayPairs_compare]
    simp [monthDayKey, Prod.ext_iff]

/-- C7 (corrected), counterexample: a series with one row per date
(2022-04-01, 2023-04-01, 2024-04-01), current range
2023-04-01 … 2024-04-01 and comparison range one day 2022-04-01: the key
`04-01` occurs twice inside the current range, so
`matched_day_count = 1` (one common key) while `len(current_rows) = 2` and
`len(comparison_rows) = 1` — the claimed three-way equality fails even
though no calendar date has two rows. -/
theorem match_count_consistency_cex :
    (canopy.get_matching_day_pairs
        [⟨⟨2023, 4, 1⟩, 1⟩, ⟨⟨2024, 4, 1⟩, 1⟩, ⟨⟨2022, 4, 1⟩, 1⟩]
        ⟨2023, 4, 1⟩ ⟨2024, 4, 1⟩ ⟨2022, 4, 1⟩ ⟨2022, 4, 1⟩).matched_day_count = 1 ∧
    (canopy.get_matching_day_pairs
        [⟨⟨2023, 4, 1⟩, 1⟩, ⟨⟨2024, 4, 1⟩, 1⟩, ⟨⟨2022, 4, 1⟩, 1⟩]
        ⟨2023, 4, 1⟩ ⟨2024, 4, 1⟩ ⟨2022, 4, 1⟩ ⟨2022, 4, 1⟩).current_data.length = 2 ∧
    (canopy.get_matching_day_pairs
        [⟨⟨2023, 4, 1⟩, 1⟩, ⟨⟨2024, 4, 1⟩, 1⟩, ⟨⟨2022, 4, 1⟩, 1⟩]
        ⟨2023, 4, 1⟩ ⟨2024, 4, 1⟩ ⟨2022, 4, 1⟩ ⟨2022, 4, 1⟩).compare_data.length = 1 ∧
    (([⟨⟨2023, 4, 1⟩, 1⟩, ⟨⟨2024, 4, 1⟩, 1⟩, ⟨⟨2022, 4, 1⟩, 1⟩] : List Row).map
        Row.date).Nodup := by
  decide

lemma length_filter_mem_toFinset {κ : Type} [DecidableEq κ] (l : List Row) (key : Date → κ)
    (S : Finset κ) (hS : S ⊆ (l.map fun r => key r.date).toFinset)
    (hnd : (l.map fun r => key r.date).Nodup) :
    (l.filter fun r => key r.date ∈ S).length = S.card := by
  have h1 : ((l.map fun r => key r.date).filter fun k => k ∈ S) =
      (l.filter fun r => key r.date ∈ S).map fun r => key r.date := by
    rw [List.filter_map]
    rfl
  have h2 : (l.filter fun r => key r.date ∈ S).length =
      ((l.map fun r => key r.date).filter fun k => k ∈ S).length := by
    rw [h1, List.length_map]
  rw [h2, ← List.toFinset_card_of_nodup (hnd.filter _), List.toFinset_filter]
  simp only [decide_eq_true_eq]
  rw [Finset.filter_mem_eq_inter, Finset.inter_eq_right.mpr hS]

lemma keyMatched_counts {κ : Type} [DecidableEq κ] (key : Date → κ) (data : List Row)
    (cs ce ks ke : Date)
    (hcur : ((data.filter fun r => inRange cs ce r.date).map fun r => key r.date).Nodup)
    (hcmp : ((data.filter fun r => inRange ks ke r.date).map fun r => key r.date).Nodup) :
    (getMatchingDayPairs key data cs ce ks ke).current_data.length =
      (getMatchingDayPairs key data cs ce ks ke).matched_day_count ∧
    (getMatchingDayPairs key data cs ce ks ke).compare_data.length =
      (getMatchingDayPairs key data cs ce ks ke).matched_day_count := by
  unfold getMatchingDayPairs
  constructor
  · exact length_filter_mem_toFinset _ key _ Finset.inter_subset_left hcur
  · exact length_filter_mem_toFinset _ key _ Finset.inter_subset_right hcmp

/-- C7 (corrected, amended): for both key-based matchers (canopy's exact
month-day and westin's weekday/week-of-month), the equality
`matched_day_count = len(current_rows) = len(comparison_rows)` holds under
the stronger hypothesis that the match key is duplicate-free among the
series rows of each filtered range (e.g. ranges spanning less than a year);
one row per calendar date alone is not enough (see the counterexample,
where a two-year current range repeats a month-day key). -/
theorem key_based_match_counts (data : List Row)
    (current_start current_end compare_start compare_end : Date)
    (h₁ : ((data.filter fun r => inRange current_start current_end r.date).map
      fun r => monthDayKey r.date).Nodup)
    (h₂ : ((data.filter fun r => inRange compare_start compare_end r.date).map
      fun r => monthDayKey r.date).Nodup)
    (h₃ : ((data.filter fun r => inRange current_start current_end r.date).map
      fun r => westinKey r.date).Nodup)
    (h₄ : ((data.filter fun r => inRange compare_start compare_end r.date).map
      fun r => westinKey r.date).Nodup) :
    ((canopy.get_matching_day_pairs data current_start current_end compare_start
          compare_end).current_data.length =
        (canopy.get_matching_day_pairs data current_start current_end compare_start
          compare_end).matched_day_count ∧
      (canopy.get_matching_day_pairs data current_start current_end compare_start
          compare_end).compare_data.length =
        (canopy.get_matching_day_pairs data current_start current_end compare_start
          compare_end).matched_day_count) ∧
    ((westin.get_matching_day_pairs data current_start current_end compare_start
          compare_end).current_data.length =
        (westin.get_matching_day_pairs data current_start current_end compare_start
          compare_end).matched_day_count ∧
      (westin.get_matching_day_pairs data current_start current_end compare_start
          compare_end).compare_data.length =
        (westin.get_matching_day_pairs data current_start current_end compare_start
          compare_end).matched_day_count) := by
  constructor
  · exact keyMatched_counts monthDayKey data _ _ _ _ h₁ h₂
  · exact keyMatched_counts westinKey data _ _ _ _ h₃ h₄

/-- C7 witness: the amended equality on a concrete two-row series (one
matched day on each side, in both variants). -/
theorem key_based_match_counts_witness :
    (canopy.get_matching_day_pairs [⟨⟨2025, 4, 3⟩, 5⟩, ⟨⟨2024, 4, 3⟩, 3⟩]
        ⟨2025, 4, 1⟩ ⟨2025, 4, 5⟩ ⟨2024, 4, 1⟩ ⟨2024, 4, 5⟩).current_data.length =
      (canopy.get_matching_day_pairs [⟨⟨2025, 4, 3⟩, 5⟩, ⟨⟨2024, 4, 3⟩, 3⟩]
        ⟨2025, 4, 1⟩ ⟨2025, 4, 5⟩ ⟨2024, 4, 1⟩ ⟨2024, 4, 5⟩).matched_day_count ∧
    (westin.get_matching_day_pairs [⟨⟨2025, 4, 3⟩, 5⟩, ⟨⟨2024, 4, 3⟩, 3⟩]
        ⟨2025, 4, 1⟩ ⟨2025, 4, 5⟩ ⟨2024, 4, 1⟩ ⟨2024, 4, 5⟩).compare_data.length =
      (westin.get_matching_day_pairs [⟨⟨2025, 4, 3⟩, 5⟩, ⟨⟨2024, 4, 3⟩, 3⟩]
        ⟨2025, 4, 1⟩ ⟨2025, 4, 5⟩ ⟨2024, 4, 1⟩ ⟨2024, 4, 5⟩).matched_day_count := by
  have h := key_based_match_counts [⟨⟨2025, 4, 3⟩, 5⟩, ⟨⟨2024, 4, 3⟩, 3⟩]
    ⟨2025, 4, 1⟩ ⟨2025, 4, 5⟩ ⟨2024, 4, 1⟩ ⟨2024, 4, 5⟩
    (by decide) (by decide) (by decide) (by decide)
  exact ⟨h.1.1, h.2.2⟩

lemma mem_find_available_dates {data : List fourc.HRow} {y : ℕ} {d : Date}
    (hd : d ∈ fourc.find_available_dates data y) :
    d.year = y ∧ ∀ hot ∈ fourc.allHotels, ∃ r, r ∈ data ∧ r.date = d ∧ r.hotel = hot := by
  unfold fourc.find_available_dates at hd
  rw [List.mem_insertionSort, List.mem_filter] at hd
  obtain ⟨hmem, hall⟩ := hd
  rw [List.mem_dedup, List.mem_map] at hmem
  obtain ⟨r0, hr0, hr0d⟩ := hmem
  rw [List.mem_filter] at hr0
  refine ⟨?_, ?_⟩
  · rw [← hr0d]
    have hy : r0.date.year = y := by simpa using hr0.2
    exact hy
  · intro hot hhot
    rw [List.all_eq_true] at hall
    have h2 := hall hot hhot
    rw [List.contains, List.elem_iff, List.mem_map] at h2
    obtain ⟨r, hr, hrh⟩ := h2
    rw [List.mem_filter] at hr
    obtain ⟨hr1, hr2⟩ := hr
    rw [List.mem_filter] at hr1
    exact ⟨r, hr1.1, by simpa using hr2, hrh⟩

lemma find_matching_days_current_sub {data : List fourc.HRow}
    {current_year previous_year : ℕ} {dateRange : Option (Date × Date)} {d : Date}
    (hd : d ∈ (fourc.find_matching_days data current_year previous_year
      dateRange).current_dates) :
    d ∈ fourc.find_available_dates data current_year ∧
      ∃ d', d' ∈ fourc.find_available_dates data previous_year ∧
        monthDayKey d' = monthDayKey d := by
  unfold fourc.find_matching_days at hd
  rcases dateRange with - | ⟨sd, ed⟩
  · rw [List.mem_insertionSort, List.mem_filter] at hd
    obtain ⟨h1, h2⟩ := hd
    simp only [decide_eq_true_eq, Finset.mem_inter, List.mem_toFinset, List.mem_map] at h2
    exact ⟨h1, h2.2⟩
  · rw [List.mem_insertionSort, List.mem_filter] at hd
    obtain ⟨h1, -⟩ := hd
    rw [List.mem_filter] at h1
    obtain ⟨h1, h2⟩ := h1
    simp only [decide_eq_true_eq, Finset.mem_inter, List.mem_toFinset, List.mem_map] at h2
    exact ⟨h1, h2.2⟩

/-- C10 (confirmed): every date returned on the current side of
`4cgroup.find_matching_days` is a day of the current year on which **all
five** hotels of `mpan_to_hotel` have data, and its month-day key is shared
with a previous-year date on which all five hotels likewise have data — so
one hotel's missing day removes the day for every hotel. -/
theorem race_requires_all_hotels (data : List fourc.HRow)
    (current_year previous_year : ℕ) (dateRange : Option (Date × Date)) (d : Date)
    (hd : d ∈ (fourc.find_matching_days data current_year previous_year
      dateRange).current_dates) :
    (d.year = current_year ∧
      ∀ hot ∈ fourc.allHotels, ∃ r, r ∈ data ∧ r.date = d ∧ r.hotel = hot) ∧
    ∃ d', d'.year = previous_year ∧ d'.month = d.month ∧ d'.day = d.day ∧
      ∀ hot ∈ fourc.allHotels, ∃ r, r ∈ data ∧ r.date = d' ∧ r.hotel = hot := by
  obtain ⟨hcur, d', hd', hkey⟩ := find_matching_days_current_sub hd
  refine ⟨mem_find_available_dates hcur, d', ?_⟩
  obtain ⟨hy, hall⟩ := mem_find_available_dates hd'
  obtain ⟨hm, hdd⟩ := Prod.mk.injEq _ _ _ _ ▸ hkey
  exact ⟨hy, hm, hdd, hall⟩

/-- C10 witness: a concrete frame in which all five hotels have a row on
2025-04-01 and on 2024-04-01; `find_matching_days` keeps 2025-04-01, and the
theorem's guarantees hold there. -/
theorem race_requires_all_hotels_witness :
    ((⟨2025, 4, 1⟩ : Date).year = 2025 ∧
      ∀ hot ∈ fourc.allHotels, ∃ r,
        r ∈ ([⟨⟨2025, 4, 1⟩, "Westin", 1⟩, ⟨⟨2025, 4, 1⟩, "Camden", 1⟩,
              ⟨⟨2025, 4, 1⟩, "Canopy", 1⟩, ⟨⟨2025, 4, 1⟩, "EH", 1⟩,
              ⟨⟨2025, 4, 1⟩, "St Albans", 1⟩, ⟨⟨2024, 4, 1⟩, "Westin", 2⟩,
              ⟨⟨2024, 4, 1⟩, "Camden", 2⟩, ⟨⟨2024, 4, 1⟩, "Canopy", 2⟩,
              ⟨⟨2024, 4, 1⟩, "EH", 2⟩, ⟨⟨2024, 4, 1⟩, "St Albans", 2⟩] :
            List fourc.HRow) ∧
          r.date = ⟨2025, 4, 1⟩ ∧ r.hotel = hot) ∧
    ∃ d', d'.year = 2024 ∧ d'.month = (⟨2025, 4, 1⟩ : Date).month ∧
      d'.day = (⟨2025, 4, 1⟩ : Date).day ∧
      ∀ hot ∈ fourc.allHotels, ∃ r,
        r ∈ ([⟨⟨2025, 4, 1⟩, "Westin", 1⟩, ⟨⟨2025, 4, 1⟩, "Camden", 1⟩,
              ⟨⟨2025, 4, 1⟩, "Canopy", 1⟩, ⟨⟨2025, 4, 1⟩, "EH", 1⟩,
              ⟨⟨2025, 4, 1⟩, "St Albans", 1⟩, ⟨⟨2024, 4, 1⟩, "Westin", 2⟩,
              ⟨⟨2024, 4, 1⟩, "Camden", 2⟩, ⟨⟨2024, 4, 1⟩, "Canopy", 2⟩,
              ⟨⟨2024, 4, 1⟩, "EH", 2⟩, ⟨⟨2024, 4, 1⟩, "St Albans", 2⟩] :
            List fourc.HRow) ∧
          r.date = d' ∧ r.hotel = hot :=
  race_requires_all_hotels
    [⟨⟨2025, 4, 1⟩, "Westin", 1⟩, ⟨⟨2025, 4, 1⟩, "Camden", 1⟩,
     ⟨⟨2025, 4, 1⟩, "Canopy", 1⟩, ⟨⟨2025, 4, 1⟩, "EH", 1⟩,
     ⟨⟨2025, 4, 1⟩, "St Albans", 1⟩, ⟨⟨2024, 4, 1⟩, "Westin", 2⟩,
     ⟨⟨2024, 4, 1⟩, "Camden", 2⟩, ⟨⟨2024, 4, 1⟩, "Canopy", 2⟩,
     ⟨⟨2024, 4, 1⟩, "EH", 2⟩, ⟨⟨2024, 4, 1⟩, "St Albans", 2⟩]
    2025 2024 none ⟨2025, 4, 1⟩ (by decide)
